import Mathlib

/-!
Shallow embedding of the job lifecycle and time-accounting engine of the
mfg-dashboard repository (Google Apps Script backend `current_appscript.js`
plus the dashboard version endpoint of the separate dashboard API file).

Modelling conventions:
* Timestamps are natural numbers: milliseconds of local time (the deployment
  timezone, Asia/Bangkok, has no daylight-saving shifts), so local midnight
  boundaries fall on multiples of `dayMs` and `Date#getDay`, `setTime` and the
  window arithmetic of the source become plain arithmetic on `Nat`.
  The epoch day (index 0) is a Thursday, as for the JS epoch.
* Strings are modelled over the character operations actually exercised by the
  source (trim, case folding, whitespace collapsing, zero-width stripping);
  the `NFKC` Unicode normalization step of `normalize` is the identity on the
  code points this model manipulates and is therefore not represented.
* The unbounded `while (current < end)` day-stepping loops of the calendar
  functions are embedded with an explicit fuel argument; the fuel chosen by
  the wrappers (`end / dayMs + 1`) is provably larger than the number of
  iterations the source loop performs, so the embedding computes the exact
  loop result.
* JSON (de)serialization of the pause-session and overtime-session columns is
  modelled as the identity: rows store the structured lists directly.
  `formatLocalTimestamp` renders a timestamp injectively; its civil
  `M/D/YYYY HH:mm:ss` display format is irrelevant to every claim and is
  abstracted.
-/

namespace Mfg

/-- Milliseconds in one minute. -/
def minuteMs : Nat := 60000

/-- Milliseconds in one hour. -/
def hourMs : Nat := 3600000

/-- Milliseconds in one calendar day. -/
def dayMs : Nat := 86400000

/-- Millisecond offset inside a day of the wall-clock time `h:m`. -/
def hmOfs (h m : Nat) : Nat := h * hourMs + m * minuteMs

/-- Midnight (local) of the calendar day containing `t`. -/
def dayStart (t : Nat) : Nat := t / dayMs * dayMs

/-- Embedding of `setTime(date, h, m)`: same calendar day as `t`, time `h:m`. -/
def setTime (t h m : Nat) : Nat := dayStart t + hmOfs h m

/-- Embedding of `date.getDay()`: 0 = Sunday .. 6 = Saturday.
The JS epoch day was a Thursday (= 4). -/
def getDay (t : Nat) : Nat := (t / dayMs + 4) % 7

/-- Embedding of `isWorkingDay(date)`: Monday (1) through Saturday (6). -/
def isWorkingDay (t : Nat) : Bool := 1 ≤ getDay t && getDay t ≤ 6

/-- Wall-clock time of day, as the `WORK_HOURS` / `OT_HOURS` constant objects
of the source store it. -/
structure HM where
  h : Nat
  m : Nat
deriving DecidableEq, Repr

/-- Millisecond offset of an `HM` value inside its day. -/
def HM.ofs (x : HM) : Nat := hmOfs x.h x.m

/-- Constant `WORK_HOURS.START` (08:30). -/
def WORK_START : HM := ⟨8, 30⟩

/-- Constant `WORK_HOURS.LUNCH_START` (12:00). -/
def LUNCH_START : HM := ⟨12, 0⟩

/-- Constant `WORK_HOURS.LUNCH_END` (13:00). -/
def LUNCH_END : HM := ⟨13, 0⟩

/-- Constant `WORK_HOURS.BREAK_START` (15:00). -/
def BREAK_START : HM := ⟨15, 0⟩

/-- Constant `WORK_HOURS.BREAK_END` (15:10). -/
def BREAK_END : HM := ⟨15, 10⟩

/-- Constant `WORK_HOURS.WORK_END` (16:45). -/
def WORK_END : HM := ⟨16, 45⟩

/-- Constant `OT_HOURS.START` (17:30). -/
def OT_START : HM := ⟨17, 30⟩

/-- Constant `OT_HOURS.END` (22:30). -/
def OT_END : HM := ⟨22, 30⟩

/-- One day-iteration of the `calculateWorkingTimeMs` loop body: the amount the
source adds to `totalMs` for the day containing `cur` (clamping each of the
three working windows to the interval, exactly as the guarded blocks of the
source do, with `sessionStart = max(current, windowStart)` and
`sessionEnd = min(end, windowEnd)`). -/
def dayWorkMs (s e cur : Nat) (workEnd : HM) : Nat :=
  if isWorkingDay cur then
    let morningStart := setTime cur WORK_START.h WORK_START.m
    let morningEnd := setTime cur LUNCH_START.h LUNCH_START.m
    let m1 :=
      if e > morningStart ∧ s < morningEnd then
        let sessionStart := max cur morningStart
        let sessionEnd := min e morningEnd
        if sessionEnd > sessionStart then sessionEnd - sessionStart else 0
      else 0
    let afternoonStart := setTime cur LUNCH_END.h LUNCH_END.m
    let breakStart := setTime cur BREAK_START.h BREAK_START.m
    let m2 :=
      if e > afternoonStart ∧ s < breakStart then
        let sessionStart := max cur afternoonStart
        let sessionEnd := min e breakStart
        if sessionEnd > sessionStart then sessionEnd - sessionStart else 0
      else 0
    let breakEnd := setTime cur BREAK_END.h BREAK_END.m
    let afternoonEnd := setTime cur workEnd.h workEnd.m
    let m3 :=
      if e > breakEnd ∧ s < afternoonEnd then
        let sessionStart := max cur breakEnd
        let sessionEnd := min e afternoonEnd
        if sessionEnd > sessionStart then sessionEnd - sessionStart else 0
      else 0
    m1 + m2 + m3
  else 0

/-- Advancement step of the source loops: midnight of the next calendar day,
then `setTime(·, h, m)` (08:30 for the working loop, 17:30 for the OT loop). -/
def nextDayAt (cur h m : Nat) : Nat := (cur / dayMs + 1) * dayMs + hmOfs h m

/-- Fuel-indexed embedding of the `while (current < end)` loop of
`calculateWorkingTimeMs`. -/
def calcWorkLoop (s e : Nat) (workEnd : HM) : Nat → Nat → Nat
  | 0, _ => 0
  | fuel + 1, cur =>
    if cur < e then
      dayWorkMs s e cur workEnd + calcWorkLoop s e workEnd fuel (nextDayAt cur WORK_START.h WORK_START.m)
    else 0

/-- Embedding of `calculateWorkingTimeMs(start, end, customWorkEnd)`:
Mon-Sat, 08:30-12:00, 13:00-15:00, 15:10-`customWorkEnd` (default 16:45),
day-stepping from `start`.  The fuel `e / dayMs + 1` strictly exceeds the
number of iterations the source loop performs. -/
def calculateWorkingTimeMs (s e : Nat) (customWorkEnd : Option HM) : Nat :=
  calcWorkLoop s e (customWorkEnd.getD WORK_END) (e / dayMs + 1) s

/-- One day-iteration of the `calculateOtTimeMs` loop body (single window
17:30-22:30 on working days). -/
def dayOtMs (s e cur : Nat) : Nat :=
  if isWorkingDay cur then
    let otStart := setTime cur OT_START.h OT_START.m
    let otEnd := setTime cur OT_END.h OT_END.m
    if e > otStart ∧ s < otEnd then
      let sessionStart := max cur otStart
      let sessionEnd := min e otEnd
      if sessionEnd > sessionStart then sessionEnd - sessionStart else 0
    else 0
  else 0

/-- Fuel-indexed embedding of the `while (current < end)` loop of
`calculateOtTimeMs`. -/
def calcOtLoop (s e : Nat) : Nat → Nat → Nat
  | 0, _ => 0
  | fuel + 1, cur =>
    if cur < e then
      dayOtMs s e cur + calcOtLoop s e fuel (nextDayAt cur OT_START.h OT_START.m)
    else 0

/-- Embedding of `calculateOtTimeMs(start, end)`: overlap with the 17:30-22:30
window on Mon-Sat, day-stepping from `start`. -/
def calculateOtTimeMs (s e : Nat) : Nat :=
  calcOtLoop s e (e / dayMs + 1) s

example : calculateWorkingTimeMs (4 * dayMs + hmOfs 9 0) (4 * dayMs + hmOfs 10 0) none = hourMs := by decide
example : calculateWorkingTimeMs (4 * dayMs + hmOfs 12 10) (4 * dayMs + hmOfs 12 50) none = 0 := by decide
example : calculateOtTimeMs (4 * dayMs + hmOfs 17 0) (4 * dayMs + hmOfs 18 30) = hourMs := by decide
example : getDay (3 * dayMs) = 0 := by decide

/-- Zero-width and invisible code points stripped by the normalization regex
of the source (U+200B-U+200D, U+FEFF, U+00A0, U+202F, U+2060, U+180E). -/
def isInvisibleChar (c : Char) : Bool :=
  (0x200B ≤ c.toNat && c.toNat ≤ 0x200D) || c.toNat == 0xFEFF || c.toNat == 0x00A0 ||
  c.toNat == 0x202F || c.toNat == 0x2060 || c.toNat == 0x180E

/-- Whitespace characters as matched by the whitespace character class of the
source regular expressions (space, tab, line feed, carriage return, vertical
tab, form feed). -/
def isJsWhitespace (c : Char) : Bool :=
  c == ' ' || c == '\t' || c == '\n' || c == '\r' || c.toNat == 11 || c.toNat == 12

/-- Replacement of every whitespace run by a single space, as the
whitespace-collapsing regex replacement of `normalize` does.  The boolean
records whether the previous character was whitespace. -/
def collapseWsAux : Bool → List Char → List Char
  | _, [] => []
  | prevWs, c :: rest =>
    if isJsWhitespace c then
      if prevWs then collapseWsAux true rest
      else ' ' :: collapseWsAux true rest
    else c :: collapseWsAux false rest

/-- Removal of leading and trailing whitespace, as `String#trim` of JS does on
the character set this model manipulates. -/
def jsTrimChars (cs : List Char) : List Char :=
  ((cs.dropWhile isJsWhitespace).reverse.dropWhile isJsWhitespace).reverse

/-- Embedding of `String(x).trim()`. -/
def jsTrim (s : String) : String := String.mk (jsTrimChars s.data)

/-- Embedding of `toLowerCase()` on the character set this model manipulates. -/
def toLowerStr (s : String) : String := String.mk (s.data.map Char.toLower)

/-- Embedding of `toUpperCase()` on the character set this model manipulates. -/
def toUpperStr (s : String) : String := String.mk (s.data.map Char.toUpper)

/-- Embedding of `String(x).trim().toUpperCase()` as the duplicate guard
applies it to status and machine cells. -/
def jsTrimUpper (s : String) : String := toUpperStr (jsTrim s)

/-- Shared tail of `normalize` and `normalizeProjectNo`: Unicode NFKC (the
identity on the modelled code points), strip invisible characters, collapse
whitespace runs, trim, lowercase. -/
def normalizePipeline (cs : List Char) : String :=
  let cs := cs.filter (fun c => !(isInvisibleChar c))
  let cs := collapseWsAux false cs
  let cs := jsTrimChars cs
  String.mk (cs.map Char.toLower)

/-- Embedding of `normalize(str)`. -/
def normalize (str : String) : String := normalizePipeline str.data

/-- Embedding of `normalizeProjectNo(str)`: leading zeros are stripped from the
raw string first (the regex is anchored at the string start), then the same
pipeline as `normalize` runs. -/
def normalizeProjectNo (str : String) : String :=
  normalizePipeline (str.data.dropWhile (fun c => c == '0'))

example : normalize "  Machine   SETTING " = "machine setting" := by decide
example : normalizeProjectNo "007" = normalizeProjectNo "7" := by decide

/-- Left zero-padding to two digits, as `padStart(2, '0')` does on the minute
and second components. -/
def pad2 (n : Nat) : String := if n < 10 then "0" ++ toString n else toString n

/-- Embedding of `msToHHMMSS(ms)`: empty string for a zero duration, otherwise
`H:MM:SS`. -/
def msToHHMMSS (ms : Nat) : String :=
  if ms == 0 then ""
  else
    let totalSeconds := ms / 1000
    let h := totalSeconds / 3600
    let m := totalSeconds % 3600 / 60
    let s := totalSeconds % 60
    toString h ++ ":" ++ pad2 m ++ ":" ++ pad2 s

/-- Embedding of `msToHHMMSSWithPlaceholder(ms)` at its default placeholder
`"-"` (every call site of the source uses the default). -/
def msToHHMMSSWithPlaceholder (ms : Nat) : String :=
  if ms == 0 then "-"
  else
    let totalSeconds := ms / 1000
    let h := totalSeconds / 3600
    let m := totalSeconds % 3600 / 60
    let s := totalSeconds % 60
    toString h ++ ":" ++ pad2 m ++ ":" ++ pad2 s

/-- Embedding of `formatLocalTimestamp(date)`.  The civil `M/D/YYYY HH:mm:ss`
rendering is irrelevant to every claim; the model keeps only that the
rendering is an injective function of the timestamp. -/
def formatLocalTimestamp (t : Nat) : String := "ts" ++ toString t

/-- Embedding of the `Utilities.formatDate(..., 'Asia/Bangkok', ...)` end-time
rendering of the close command, abstracted the same way. -/
def formatBangkokTimestamp (t : Nat) : String := "bkk" ++ toString t

/-- OTSession record as stored in the overtime-session JSON column:
`{start, start_local, end, end_local, autoStopped, note}`.  The JS `end`
field is named `end_` because `end` is reserved in Lean. -/
structure OTSession where
  start : Option Nat := none
  start_local : String := ""
  end_ : Option Nat := none
  end_local : String := ""
  autoStopped : Bool := false
  note : String := ""
deriving DecidableEq, Repr

/-- PauseSession record as stored in the pause-session JSON column:
`{type, reason, pause, pause_local, resume, resume_local, wasInOT}`. -/
structure PauseEntry where
  type : String := "PAUSE"
  reason : String := ""
  pause : Option Nat := none
  pause_local : String := ""
  resume : Option Nat := none
  resume_local : String := ""
  wasInOT : Bool := false
deriving DecidableEq, Repr

/-- Embedding of `calculatePauseTimeWithOTSessions(pauseStart, pauseEnd,
otSessions)`: working-hours overlap of the pause interval plus, for every OT
session having both a start and an end, the OT-window overlap of the
intersection of the pause interval with that session. -/
def calculatePauseTimeWithOTSessions (pauseStart pauseEnd : Nat) (otSessions : List OTSession) : Nat :=
  let workingTimeMs := calculateWorkingTimeMs pauseStart pauseEnd none
  let otTimeMs := otSessions.foldl (fun acc ot =>
    match ot.start, ot.end_ with
    | some otStart, some otEnd =>
      let overlapStart := max pauseStart otStart
      let overlapEnd := min pauseEnd otEnd
      if overlapEnd > overlapStart then acc + calculateOtTimeMs overlapStart overlapEnd
      else acc
    | _, _ => acc) 0
  workingTimeMs + otTimeMs

/-- Embedding of `sumPauseTypeMs(pauseTimes, type, otSessions)`: sums the
per-session pause duration over completed sessions of the given type. -/
def sumPauseTypeMs (pauseTimes : List PauseEntry) (ptype : String) (otSessions : List OTSession) : Nat :=
  pauseTimes.foldl (fun sum p =>
    match p.pause, p.resume with
    | some ps, some pr =>
      if p.type == ptype then sum + calculatePauseTimeWithOTSessions ps pr otSessions else sum
    | _, _ => sum) 0

/-- Embedding of `calculateTotalPauseTimeWithOTSessions(pauseTimes,
otSessions)`: sums the per-session pause duration over all completed
sessions. -/
def calculateTotalPauseTimeWithOTSessions (pauseTimes : List PauseEntry) (otSessions : List OTSession) : Nat :=
  pauseTimes.foldl (fun totalMs p =>
    match p.pause, p.resume with
    | some ps, some pr => totalMs + calculatePauseTimeWithOTSessions ps pr otSessions
    | _, _ => totalMs) 0

/-- Type label used by the pause summaries: `Downtime` for DOWNTIME sessions,
`Normal Pause` otherwise. -/
def pauseTypeLabel (p : PauseEntry) : String :=
  if p.type == "DOWNTIME" then "Downtime" else "Normal Pause"

/-- Embedding of `formatPauseTimesSummary(pauseTimes, otSessions)`: one
numbered entry per pause session (completed sessions show both endpoints and a
duration, the active session shows a placeholder token), pipe-joined. -/
def formatPauseTimesSummary (pauseTimes : List PauseEntry) (otSessions : List OTSession) : String :=
  if pauseTimes.isEmpty then ""
  else
    let items := pauseTimes.filterMap (fun p =>
      match p.pause, p.resume with
      | some ps, some pr =>
        let duration := msToHHMMSS (calculatePauseTimeWithOTSessions ps pr otSessions)
        let reason := if p.reason ≠ "" then " - " ++ p.reason else ""
        let pauseStart := if p.pause_local ≠ "" then p.pause_local else formatLocalTimestamp ps
        let pauseEnd := if p.resume_local ≠ "" then p.resume_local else formatLocalTimestamp pr
        some (pauseTypeLabel p ++ ": " ++ pauseStart ++ " ถึง " ++ pauseEnd ++ " (" ++ duration ++ ")" ++ reason)
      | some ps, none =>
        let reason := if p.reason ≠ "" then " - " ++ p.reason else ""
        let pauseStart := if p.pause_local ≠ "" then p.pause_local else formatLocalTimestamp ps
        some (pauseTypeLabel p ++ ": " ++ pauseStart ++ " ถึง [กำลังหยุด]" ++ reason)
      | _, _ => none)
    String.intercalate " | " (items.enum.map (fun x => toString (x.1 + 1) ++ ". " ++ x.2))

/-- Embedding of `formatReasonSummary(pauseTimes)`: numbered entries for the
sessions whose trimmed reason is non-empty, pipe-joined. -/
def formatReasonSummary (pauseTimes : List PauseEntry) : String :=
  if pauseTimes.isEmpty then ""
  else
    let items := pauseTimes.filterMap (fun p =>
      if jsTrim p.reason ≠ "" then some (pauseTypeLabel p ++ ": " ++ jsTrim p.reason) else none)
    String.intercalate " | " (items.enum.map (fun x => toString (x.1 + 1) ++ ". " ++ x.2))

/-- Embedding of `formatOtTimesSummary(otTimes)`: numbered entries for the
sessions having both endpoints, pipe-joined. -/
def formatOtTimesSummary (otTimes : List OTSession) : String :=
  if otTimes.isEmpty then ""
  else
    let items := otTimes.filterMap (fun ot =>
      match ot.start, ot.end_ with
      | some s, some e =>
        let startLocal := if ot.start_local ≠ "" then ot.start_local else formatLocalTimestamp s
        let endLocal := if ot.end_local ≠ "" then ot.end_local else formatLocalTimestamp e
        let duration := msToHHMMSS (calculateOtTimeMs s e)
        let autoStoppedNote := if ot.autoStopped then " (Auto-stopped)" else ""
        some (startLocal ++ " to " ++ endLocal ++ " (" ++ duration ++ ")" ++ autoStoppedNote)
      | _, _ => none)
    String.intercalate " | " (items.enum.map (fun x => toString (x.1 + 1) ++ ". " ++ x.2))

/-- Embedding of `autoStopOtSessions(otTimes)` at current time `now`: every
session with a start and no end whose same-day 22:30 cutoff has passed (or
whose calendar day differs from today) is force-ended at that cutoff, marked
auto-stopped, and annotated.  The `getDate()` day-of-month comparison of the
source is modelled as a calendar-day index comparison (the two differ only for
distinct days sharing a day-of-month, where both indicate a day change).
Returns the changed flag together with the updated list. -/
def autoStopOtSessions (otTimes : List OTSession) (now : Nat) : Bool × List OTSession :=
  let results := otTimes.map (fun ot =>
    match ot.start, ot.end_ with
    | some st, none =>
      let otEnd := dayStart st + hmOfs OT_END.h OT_END.m
      if now > otEnd || now / dayMs ≠ st / dayMs then
        (true, { ot with
          end_ := some otEnd,
          end_local := formatLocalTimestamp otEnd,
          autoStopped := true,
          note := "OT stopped automatically at 22:30" })
      else (false, ot)
    | _, _ => (false, ot))
  (results.any (fun x => x.1), results.map (fun x => x.2))

/-- Persisted CNC LOG row (the ~29 ordered record fields; column numbers in
the comments are the 1-based sheet columns of the source).  The two session
columns hold their structured lists directly (serialization is modelled as the
identity). -/
structure Row where
  logNo : Nat := 0                         -- col 1
  projectNo : String := ""                 -- col 2
  customerName : String := ""              -- col 3
  partName : String := ""                  -- col 4
  drawingNo : String := ""                 -- col 5
  quantityOrdered : String := ""           -- col 6
  processName : String := ""               -- col 7
  processNo : String := ""                 -- col 8
  stepNo : String := ""                    -- col 9
  machineNo : String := ""                 -- col 10
  startEmployeeCode : String := ""         -- col 11
  startTime : Nat := 0                     -- col 12
  endEmployeeCode : String := ""           -- col 13
  endTime : String := ""                   -- col 14
  processTime : String := ""               -- col 15
  fg : String := ""                        -- col 16
  ng : String := ""                        -- col 17
  rework : String := ""                    -- col 18
  status : String := ""                    -- col 19
  pauseSummary : String := ""              -- col 20
  totalDowntime : String := ""             -- col 21
  totalNormalPause : String := ""          -- col 22
  totalPauseTime : String := ""            -- col 23
  pauseTimes : List PauseEntry := []       -- col 24 (JSON)
  reasonSummary : String := ""             -- col 25
  otTimes : List OTSession := []           -- col 26 (JSON)
  otSummary : String := ""                 -- col 27
  otDuration : String := ""                -- col 28
  remark : String := ""                    -- col 29
  mfg : String := ""                       -- col 30
deriving DecidableEq, Repr

/-- Inbound command document (the POST body).  Absent JS fields are modelled
as the empty string / zero, matching the `|| default` coalescing of the
source. -/
structure Request where
  status : String := ""
  action : String := ""
  projectNo : String := ""
  partName : String := ""
  customerName : String := ""
  drawingNo : String := ""
  quantityOrdered : String := ""
  processName : String := ""
  processNo : String := ""
  stepNo : String := ""
  machineNo : String := ""
  employeeCode : String := ""
  pauseType : String := ""
  pauseReason : String := ""
  fg : Nat := 0
  ng : Nat := 0
  rework : Nat := 0
  remark : String := ""
  mfg : String := ""
deriving DecidableEq, Repr

/-- Embedding of `extractMFGField(data)`; a MFG array is modelled as its
already comma-joined string. -/
def extractMFGField (data : Request) : String := data.mfg

/-- Row comparison shared verbatim by the five row-targeting command loops of
`submitLog` (START_OT, STOP_OT, CONTINUE, PAUSE and CLOSE all compare exactly
these five normalized fields; the part name is not among them). -/
def matchesJobRow (data : Request) (r : Row) : Bool :=
  normalizeProjectNo r.projectNo == normalizeProjectNo data.projectNo &&
  normalize r.processName == normalize data.processName &&
  normalize r.processNo == normalize data.processNo &&
  normalize r.stepNo == normalize data.stepNo &&
  normalize r.machineNo == normalize data.machineNo

/-- Row test of `isDuplicateOpenJob`: OPEN status together with the six
normalized identity key fields (this one does include the part name). -/
def isDuplicateOpenJobRow (data : Request) (r : Row) : Bool :=
  jsTrimUpper r.status == "OPEN" &&
  normalizeProjectNo r.projectNo == normalizeProjectNo data.projectNo &&
  normalize r.partName == normalize data.partName &&
  normalize r.processName == normalize data.processName &&
  jsTrim r.processNo == jsTrim data.processNo &&
  jsTrim r.stepNo == jsTrim data.stepNo &&
  jsTrimUpper r.machineNo == jsTrimUpper data.machineNo

/-- Embedding of `isDuplicateOpenJob(data, sheet)`.  The guard performs its
own full-table read inside a try/catch whose catch clause logs and falls
through to `return false`; the read is therefore modelled as an
`Except`-valued argument, and a failed read yields `false`. -/
def isDuplicateOpenJob (data : Request) (readResult : Except String (List Row)) : Bool :=
  match readResult with
  | .error _ => false
  | .ok values => values.any (isDuplicateOpenJobRow data)

/-- Scan helper for `lastMatchIdx`: the result on the suffix wins, so the
returned match is the last (highest-index) one, as the `for (i = length - 1;
i > 0; i--)` loops of the source select it. -/
def lastMatchIdxFrom (p : Row → Bool) (n : Nat) : List Row → Option (Nat × Row)
  | [] => none
  | r :: rest =>
    match lastMatchIdxFrom p (n + 1) rest with
    | some x => some x
    | none => if p r then some (n, r) else none

/-- Last-to-first row scan of the command loops: the selected row is the last
(highest-index) row satisfying the predicate, returned with its index. -/
def lastMatchIdx (p : Row → Bool) (values : List Row) : Option (Nat × Row) :=
  lastMatchIdxFrom p 0 values

/-- Outcome of a `submitLog` run: the resulting table and, when the source
would throw, the error message (the table is unchanged in that case, since
every throw of the source happens before its persistence call). -/
structure SubmitResult where
  table : List Row
  err : Option String := none
deriving DecidableEq, Repr

/-- Normalization the START_OT branch test applies to the action string:
`String(data.action).toUpperCase().replace(whitespace-run regex, '')`. -/
def startOtActionName (action : String) : String :=
  String.mk ((toUpperStr action).data.filter (fun c => !(isJsWhitespace c)))

/-- Embedding of the START_OT branch of `submitLog`: select the last matching
row in status OPEN or OT, auto-stop stale open OT sessions, validate that now
lies in the same-day overtime window (at or past 22:30, and before 17:30, are
rejected — the in-branch throws are re-thrown by the branch catch with the
wrapping prefix), then append a fresh open session and set status OT
(columns 19 and 26). -/
def submitLogStartOt (data : Request) (values : List Row) (now : Nat) : SubmitResult :=
  match lastMatchIdx (fun r => matchesJobRow data r && (r.status == "OPEN" || r.status == "OT")) values with
  | none =>
    { table := values,
      err := some "ไม่พบงานที่เปิดอยู่สำหรับการเริ่ม OT\n(หมายเหตุ: หากงานอยู่ในสถานะพักงาน กรุณาดำเนินการต่อก่อนเริ่ม OT)" }
  | some (i, row) =>
    let otTimes := (autoStopOtSessions row.otTimes now).2
    let todayEndLimit := setTime now OT_END.h OT_END.m
    if now ≥ todayEndLimit then
      { table := values, err := some ("เกิดข้อผิดพลาดในการเริ่ม OT: " ++ "ไม่สามารถเริ่ม OT ได้หลัง 22:30") }
    else
      let todayStartLimit := setTime now OT_START.h OT_START.m
      if now < todayStartLimit then
        { table := values, err := some ("เกิดข้อผิดพลาดในการเริ่ม OT: " ++ "ไม่สามารถเริ่ม OT ก่อน 17:30") }
      else
        let otTimes := otTimes ++ [{ start := some now, start_local := formatLocalTimestamp now }]
        { table := values.set i { row with status := "OT", otTimes := otTimes } }

/-- Total overtime milliseconds over the sessions having both endpoints, as
the STOP_OT, CLOSE and auto-stop code computes it. -/
def otClosedSumMs (otTimes : List OTSession) : Nat :=
  otTimes.foldl (fun acc ot =>
    match ot.start, ot.end_ with
    | some s, some e => acc + calculateOtTimeMs s e
    | _, _ => acc) 0

/-- Close of the most recent open OT session (the STOP_OT scan from the end):
returns whether one was found together with the updated list. -/
def closeLastOpenOt (otTimes : List OTSession) (now : Nat) : Bool × List OTSession :=
  match otTimes.enum.foldl (fun acc x =>
      match x.2.start, x.2.end_ with
      | some _, none => some x.1
      | _, _ => acc) none with
  | none => (false, otTimes)
  | some j =>
    (true, otTimes.enum.map (fun y =>
      if y.1 == j then { y.2 with end_ := some now, end_local := formatLocalTimestamp now } else y.2))

/-- Embedding of the STOP_OT branch of `submitLog`: select the last matching
row in status OT or PAUSE, end the most recent open OT session at now (error
when none is open), recompute the overtime total, and write status (PAUSE is
preserved, otherwise OPEN), session JSON, summary and duration (columns 19,
26, 27, 28). -/
def submitLogStopOt (data : Request) (values : List Row) (now : Nat) : SubmitResult :=
  match lastMatchIdx (fun r => matchesJobRow data r && (r.status == "OT" || r.status == "PAUSE")) values with
  | none =>
    { table := values, err := some "ไม่พบงานที่ตรงกันหรือไม่มีเซสชัน OT ที่เปิดอยู่สำหรับการหยุด OT" }
  | some (i, row) =>
    let res := closeLastOpenOt row.otTimes now
    if !res.1 then
      { table := values, err := some ("เกิดข้อผิดพลาดในการหยุด OT: " ++ "ไม่พบเซสชัน OT ที่เปิดอยู่สำหรับการหยุด OT") }
    else
      let otTimes := res.2
      let totalOtMs := otClosedSumMs otTimes
      let newStatus := if row.status == "PAUSE" then "PAUSE" else "OPEN"
      { table := values.set i { row with
          status := newStatus,
          otTimes := otTimes,
          otSummary := formatOtTimesSummary otTimes,
          otDuration := msToHHMMSSWithPlaceholder totalOtMs } }

/-- Resume of the most recent open pause entry (the CONTINUE scan from the
end): fills `resume`/`resume_local`, back-fills a missing `pause_local`, or
yields `none` when no entry is open. -/
def resumeLastOpenPause (pauseTimes : List PauseEntry) (now : Nat) : Option (List PauseEntry) :=
  match pauseTimes.enum.foldl (fun acc x =>
      match x.2.pause, x.2.resume with
      | some _, none => some x.1
      | _, _ => acc) none with
  | none => none
  | some j =>
    some (pauseTimes.enum.map (fun y =>
      if y.1 == j then
        let p := { y.2 with resume := some now, resume_local := formatLocalTimestamp now }
        if p.pause_local == "" then
          match p.pause with
          | some pp => { p with pause_local := formatLocalTimestamp pp }
          | none => p
        else p
      else y.2))

/-- Embedding of the CONTINUE branch of `submitLog`: select the last matching
row in status PAUSE, resume its most recent open pause entry, decide the new
status (OT exactly when an OT session is open and now lies inside the
same-day 17:30-22:30 window, both bounds inclusive), recompute pause totals
and summaries, and write columns 19-25. -/
def submitLogContinue (data : Request) (values : List Row) (now : Nat) : SubmitResult :=
  match lastMatchIdx (fun r => matchesJobRow data r && r.status == "PAUSE") values with
  | none =>
    { table := values, err := some "ไม่พบงานที่อยู่ในสถานะ PAUSE สำหรับการดำเนินการต่อ" }
  | some (i, row) =>
    match resumeLastOpenPause row.pauseTimes now with
    | none =>
      { table := values, err := some ("เกิดข้อผิดพลาดในการดำเนินงานต่อ: " ++ "ไม่พบช่วงเวลาหยุดที่ยังไม่ถูกดำเนินการต่อ") }
    | some pauseTimes =>
      let otTimes := row.otTimes
      let hasActiveOTSession := otTimes.any (fun ot => ot.start.isSome && ot.end_.isNone)
      let otStartToday := setTime now OT_START.h OT_START.m
      let otEndToday := setTime now OT_END.h OT_END.m
      let isWithinOTHours := otStartToday ≤ now && now ≤ otEndToday
      let shouldBeOT := hasActiveOTSession && isWithinOTHours
      let totalPaused := calculateTotalPauseTimeWithOTSessions pauseTimes otTimes
      let totalDowntime := sumPauseTypeMs pauseTimes "DOWNTIME" otTimes
      let totalNormalPause := sumPauseTypeMs pauseTimes "PAUSE" otTimes
      { table := values.set i { row with
          status := if shouldBeOT then "OT" else "OPEN",
          pauseSummary := formatPauseTimesSummary pauseTimes otTimes,
          totalDowntime := msToHHMMSSWithPlaceholder totalDowntime,
          totalNormalPause := msToHHMMSSWithPlaceholder totalNormalPause,
          totalPauseTime := msToHHMMSSWithPlaceholder totalPaused,
          pauseTimes := pauseTimes,
          reasonSummary := formatReasonSummary pauseTimes } }

/-- Embedding of the PAUSE branch of `submitLog`: select the last matching row
whose trimmed status is OPEN or OT, append a new open pause entry (capturing
whether the row was in OT), recompute pause totals and summaries, and write
columns 19-25 with status PAUSE. -/
def submitLogPause (data : Request) (values : List Row) (now : Nat) : SubmitResult :=
  match lastMatchIdx (fun r => matchesJobRow data r && (jsTrim r.status == "OPEN" || jsTrim r.status == "OT")) values with
  | none =>
    { table := values, err := some "ไม่พบงานที่อยู่ในสถานะ OPEN หรือ OT สำหรับการหยุดชั่วคราว" }
  | some (i, row) =>
    let pauseType := if data.pauseType == "" then "PAUSE" else data.pauseType
    let isOT := row.status == "OT"
    let pauseTimes := row.pauseTimes ++ [{
      type := pauseType,
      reason := data.pauseReason,
      pause := some now,
      pause_local := formatLocalTimestamp now,
      wasInOT := isOT }]
    let otTimes := row.otTimes
    let totalPaused := calculateTotalPauseTimeWithOTSessions pauseTimes otTimes
    let totalDowntime := sumPauseTypeMs pauseTimes "DOWNTIME" otTimes
    let totalNormalPause := sumPauseTypeMs pauseTimes "PAUSE" otTimes
    { table := values.set i { row with
        status := "PAUSE",
        pauseSummary := formatPauseTimesSummary pauseTimes otTimes,
        totalDowntime := msToHHMMSSWithPlaceholder totalDowntime,
        totalNormalPause := msToHHMMSSWithPlaceholder totalNormalPause,
        totalPauseTime := msToHHMMSSWithPlaceholder totalPaused,
        pauseTimes := pauseTimes,
        reasonSummary := formatReasonSummary pauseTimes } }

/-- End of the last OT session of the list when it is open, as the CLOSE
branch does before its auto-stop sweep (only the final element is examined). -/
def closeFinalOtIfOpen (otTimes : List OTSession) (t : Nat) : List OTSession :=
  match otTimes.getLast? with
  | some lastOt =>
    match lastOt.start, lastOt.end_ with
    | some _, none =>
      otTimes.dropLast ++ [{ lastOt with end_ := some t, end_local := formatLocalTimestamp t }]
    | _, _ => otTimes
  | none => otTimes

/-- Embedding of the CLOSE branch of `submitLog`.  The scan from the end stops
at the first row matching the five key fields whose status is PAUSE (explicit
localized rejection), OPEN or OT (close it); rows matching the key in any
other status are skipped.  Closing captures the end employee and time, ends a
still-open final OT session, sweeps stale open sessions, recomputes every
total, computes the process time as working time (with the 22:30 custom work
end exactly for the Machine Setting process) plus overtime minus total pause
floored at zero, resolves the FG/NG/Rework sentinel, and writes columns
13-28 with status CLOSE. -/
def submitLogClose (data : Request) (values : List Row) (now : Nat) : SubmitResult :=
  match lastMatchIdx (fun r => matchesJobRow data r &&
      (r.status == "PAUSE" || r.status == "OPEN" || r.status == "OT")) values with
  | none =>
    { table := values, err := some "ไม่เจอข้อมูลของการเริ่มงาน โปรดลองอีกครั้ง" }
  | some (i, row) =>
    if row.status == "PAUSE" then
      { table := values,
        err := some "กรุณากด \"ดำเนินงานต่อ\" ก่อนที่จะกดปิดงาน งานที่คุณจะปิด อยู่ในสถานะพักงาน" }
    else
      let endTime := now
      let pauseTimes := row.pauseTimes
      let wasInOT := row.status == "OT"
      let otTimes :=
        if wasInOT && !row.otTimes.isEmpty then closeFinalOtIfOpen row.otTimes endTime
        else row.otTimes
      let otTimes := (autoStopOtSessions otTimes endTime).2
      let totalOtMs := otClosedSumMs otTimes
      let totalPaused := calculateTotalPauseTimeWithOTSessions pauseTimes otTimes
      let totalDowntime := sumPauseTypeMs pauseTimes "DOWNTIME" otTimes
      let totalNormalPause := sumPauseTypeMs pauseTimes "PAUSE" otTimes
      let isMachineSetting := normalize row.processName == normalize "Machine Setting"
      let customWorkEnd : Option HM := if isMachineSetting then some ⟨22, 30⟩ else none
      let regularTimeMs := calculateWorkingTimeMs row.startTime endTime customWorkEnd
      let processMs : Int := (regularTimeMs : Int) + (totalOtMs : Int) - (totalPaused : Int)
      let processMs : Int := if processMs < 0 then 0 else processMs
      let fgValue := if !isMachineSetting then toString data.fg else "-"
      let ngValue := if !isMachineSetting then toString data.ng else "-"
      let reworkValue := if !isMachineSetting then toString data.rework else "-"
      { table := values.set i { row with
          endEmployeeCode := data.employeeCode,
          endTime := formatBangkokTimestamp endTime,
          processTime := msToHHMMSSWithPlaceholder processMs.toNat,
          fg := fgValue,
          ng := ngValue,
          rework := reworkValue,
          status := "CLOSE",
          pauseSummary := formatPauseTimesSummary pauseTimes otTimes,
          totalDowntime := msToHHMMSSWithPlaceholder totalDowntime,
          totalNormalPause := msToHHMMSSWithPlaceholder totalNormalPause,
          totalPauseTime := msToHHMMSSWithPlaceholder totalPaused,
          pauseTimes := pauseTimes,
          reasonSummary := formatReasonSummary pauseTimes,
          otTimes := otTimes,
          otSummary := formatOtTimesSummary otTimes,
          otDuration := msToHHMMSSWithPlaceholder totalOtMs } }

/-- New OPEN row appended by the create path: log number is the maximum
existing log number plus one, identity and payload fields are copied, status
is OPEN, both session lists start empty.  The leading apostrophe forced onto
the drawing number is the character `\x27`. -/
def createRow (data : Request) (values : List Row) (now : Nat) : Row :=
  let maxLogNo := values.foldl (fun acc r => max acc r.logNo) 0
  { logNo := maxLogNo + 1,
    projectNo := data.projectNo,
    customerName := data.customerName,
    partName := data.partName,
    drawingNo := "\x27" ++ data.drawingNo,
    quantityOrdered := data.quantityOrdered,
    processName := data.processName,
    processNo := data.processNo,
    stepNo := data.stepNo,
    machineNo := data.machineNo,
    startEmployeeCode := data.employeeCode,
    startTime := now,
    status := "OPEN",
    pauseTimes := [],
    otTimes := [],
    mfg := extractMFGField data }

/-- Localized rejection message of the duplicate-OPEN guard of `submitLog`,
interpolating the offending identity fields. -/
def dupOpenErrorMessage (data : Request) : String :=
  "พบงานที่เปิดอยู่แล้วในระบบ:\nProject: " ++ data.projectNo ++
  "\nPart: " ++ data.partName ++ "\nProcess: " ++ data.processName ++
  " (" ++ data.processNo ++ ")\nStep: " ++ data.stepNo ++
  "\nMachine: " ++ data.machineNo ++ "\n\nกรุณาปิดงานเดิมก่อนเริ่มงานใหม่"

/-- Embedding of `submitLog(data)`.  `values` is the fresh full-table read the
function performs on entry; `guardRead` is the independent read the duplicate
guard performs (equal to `Except.ok values` when that read succeeds).  The
branch structure mirrors the source: the outer guard admits status OPEN or
the exact actions START_OT / STOP_OT, the START_OT test uses the
uppercased/whitespace-stripped action, CONTINUE is tested inside the outer
guard, the duplicate guard protects only the final create path, and the PAUSE
and CLOSE branches key on `data.status`.  A request matching no branch runs
to completion without touching the table. -/
def submitLogRun (data : Request) (values : List Row) (guardRead : Except String (List Row)) (now : Nat) : SubmitResult :=
  if data.status == "OPEN" || data.action == "START_OT" || data.action == "STOP_OT" then
    if startOtActionName data.action == "START_OT" then
      submitLogStartOt data values now
    else if data.action == "STOP_OT" then
      submitLogStopOt data values now
    else if data.action == "CONTINUE" then
      submitLogContinue data values now
    else if isDuplicateOpenJob data guardRead then
      { table := values, err := some (dupOpenErrorMessage data) }
    else
      { table := values ++ [createRow data values now] }
  else if data.status == "PAUSE" then
    submitLogPause data values now
  else if data.status == "CLOSE" then
    submitLogClose data values now
  else
    { table := values }

/-- Response of the command endpoint. -/
inductive ApiStatus where
  | okStatus : ApiStatus
  | errorStatus : String → ApiStatus
deriving DecidableEq, Repr

/-- Instantly-closed QC row appended by `submitQCReport`. -/
def qcReportRow (data : Request) (values : List Row) (now : Nat) : Row :=
  let maxLogNo := values.foldl (fun acc r => max acc r.logNo) 0
  { logNo := maxLogNo + 1,
    projectNo := data.projectNo,
    customerName := data.customerName,
    partName := data.partName,
    drawingNo := "\x27" ++ data.drawingNo,
    quantityOrdered := data.quantityOrdered,
    processName := "QC",
    processNo := "-",
    stepNo := "-",
    machineNo := "-",
    startEmployeeCode := data.employeeCode,
    startTime := now,
    endEmployeeCode := data.employeeCode,
    endTime := formatLocalTimestamp now,
    processTime := "-",
    fg := toString data.fg,
    ng := toString data.ng,
    rework := toString data.rework,
    status := "CLOSE",
    pauseTimes := [],
    otTimes := [],
    remark := data.remark }

/-- Embedding of `doPost(e)`: DAILY_REPORT is routed to the daily report sheet
(a different sheet — the CNC LOG table is untouched), QC_REPORT appends an
instantly-closed row, every other document is passed to `submitLog`; a throw
becomes an ERROR response carrying the message, otherwise the response is
OK. -/
def doPost (data : Request) (values : List Row) (guardRead : Except String (List Row)) (now : Nat) : ApiStatus × List Row :=
  if data.action == "DAILY_REPORT" then
    (ApiStatus.okStatus, values)
  else if data.action == "QC_REPORT" then
    (ApiStatus.okStatus, values ++ [qcReportRow data values now])
  else
    let res := submitLogRun data values guardRead now
    match res.err with
    | some m => (ApiStatus.errorStatus m, res.table)
    | none => (ApiStatus.okStatus, res.table)

/-- One range write of the persistence layer: 1-based start column and column
count of a `getRange(row, colStart, 1, numCols).setValues(...)` call (or of
the `appendRow` call of the create path). -/
structure RangeWrite where
  colStart : Nat
  numCols : Nat
deriving DecidableEq, Repr

/-- Range writes the create path issues: a single `appendRow` covering the
whole 32-column row literal. -/
def createWritePlan : List RangeWrite := [⟨1, 32⟩]

/-- Range writes the START_OT branch issues: two separate single-cell
`setValues` calls, one for the status column 19 and one for the OT JSON
column 26. -/
def startOtWritePlan : List RangeWrite := [⟨19, 1⟩, ⟨26, 1⟩]

/-- Range writes the STOP_OT branch issues: four separate single-cell
`setValues` calls (status 19, OT JSON 26, OT summary 27, OT duration 28). -/
def stopOtWritePlan : List RangeWrite := [⟨19, 1⟩, ⟨26, 1⟩, ⟨27, 1⟩, ⟨28, 1⟩]

/-- Range write the CONTINUE branch issues: one seven-column range covering
columns 19-25. -/
def continueWritePlan : List RangeWrite := [⟨19, 7⟩]

/-- Range write the PAUSE branch issues: one seven-column range covering
columns 19-25. -/
def pauseWritePlan : List RangeWrite := [⟨19, 7⟩]

/-- Range writes the CLOSE branch issues: the sixteen-column range covering
columns 13-28, written twice (the source calls `setValues` on the same range
and values a second time after the first succeeded). -/
def closeWritePlan : List RangeWrite := [⟨13, 16⟩, ⟨13, 16⟩]

/-- Persistence semantics of the START_OT branch under write failures: each of
the two cell writes sits in its own try/catch whose catch clause only logs, the
loop then proceeds to the next write, and the branch returns normally — so a
failed write is skipped and no error reaches the caller.  `fail19` / `fail26`
say whether the status-cell and OT-JSON-cell writes fail. -/
def startOtApplyWrites (fail19 fail26 : Bool) (r : Row) (newStatus : String)
    (newOtTimes : List OTSession) : Option String × Row :=
  let r := if fail19 then r else { r with status := newStatus }
  let r := if fail26 then r else { r with otTimes := newOtTimes }
  (none, r)

/-- Persistence semantics of the STOP_OT branch under write failures: same
per-cell try/catch-and-log pattern over its four cell writes. -/
def stopOtApplyWrites (fail19 fail26 fail27 fail28 : Bool) (r : Row) (newStatus : String)
    (newOtTimes : List OTSession) (newOtSummary newOtDuration : String) : Option String × Row :=
  let r := if fail19 then r else { r with status := newStatus }
  let r := if fail26 then r else { r with otTimes := newOtTimes }
  let r := if fail27 then r else { r with otSummary := newOtSummary }
  let r := if fail28 then r else { r with otDuration := newOtDuration }
  (none, r)

/-- Persistence semantics of the PAUSE branch: its single seven-column
`setValues` is covered by the branch catch, which re-throws the failure
wrapped in the localized pause-error prefix, leaving the row unwritten. -/
def pauseApplyWrite (failWrite : Option String) (newRow : Row) : Except String Row :=
  match failWrite with
  | some m => .error ("เกิดข้อผิดพลาดในการหยุดงาน: " ++ m)
  | none => .ok newRow

/-- Persistence semantics of the CONTINUE branch: single seven-column write,
failure re-thrown wrapped in the continue-error prefix. -/
def continueApplyWrite (failWrite : Option String) (newRow : Row) : Except String Row :=
  match failWrite with
  | some m => .error ("เกิดข้อผิดพลาดในการดำเนินงานต่อ: " ++ m)
  | none => .ok newRow

/-- Persistence semantics of the CLOSE branch: its sixteen-column write is
guarded by an inner catch that re-throws as a data-write error, which the
branch catch wraps again in the close-error prefix. -/
def closeApplyWrite (failWrite : Option String) (newRow : Row) : Except String Row :=
  match failWrite with
  | some m =>
    .error ("เกิดข้อผิดพลาดในการปิดงาน: " ++ ("เกิดข้อผิดพลาดในการเขียนข้อมูล: " ++ m))
  | none => .ok newRow

/-- Persistence semantics of the create path: `appendRow` is not wrapped by
any catch inside `submitLog`, so a failure propagates unchanged to the
endpoint. -/
def createApplyWrite (failWrite : Option String) (values : List Row) (newRow : Row) : Except String (List Row) :=
  match failWrite with
  | some m => .error m
  | none => .ok (values ++ [newRow])

/-- Code of the first character of a cell value (`charCodeAt(0)`), zero for
the empty string where the source guards on the length instead. -/
def firstCharCode (s : String) : Nat :=
  match s.data with
  | [] => 0
  | c :: _ => c.toNat

/-- Indexed accumulation loop of the `getDashboardVersion` hash: for row `i`
(zero-based over the bounded prefix) with status value `s` and machine value
`m`, add `(len s + len m) * (i+1)`, then the first character code of `s`
times `(i+1)` when `s` is non-empty, then the first character code of `m`
times `(i+2)` when `m` is non-empty. -/
def dashHashAux : Nat → Nat → List (String × String) → Nat
  | acc, _, [] => acc
  | acc, i, x :: rest =>
    let statusVal := x.1
    let machineVal := x.2
    let acc := acc + (statusVal.length + machineVal.length) * (i + 1)
    let acc := if statusVal.length > 0 then acc + firstCharCode statusVal * (i + 1) else acc
    let acc := if machineVal.length > 0 then acc + firstCharCode machineVal * (i + 2) else acc
    dashHashAux acc (i + 1) rest

/-- Embedding of the `quickHash` computation of `getDashboardVersion`:
`lastRow * 31` (the sheet row count including the header row) accumulated over
the first `min(10, lastRow - 1)` data rows of (status, machine) pairs. -/
def getDashboardQuickHash (rows : List (String × String)) : Nat :=
  dashHashAux ((rows.length + 1) * 31) 0 (rows.take 10)

/-- Change fingerprint `getDashboardVersion` serves to polling clients: the
row count together with `Math.abs(quickHash) % 1000000`. -/
def getDashboardVersionFingerprint (rows : List (String × String)) : Nat × Nat :=
  (rows.length + 1, getDashboardQuickHash rows % 1000000)

example : getDashboardVersionFingerprint [("AB", "M1")] = getDashboardVersionFingerprint [("AC", "M1")] := by decide

/-- Clamped overlap of `[s, e]` with a window `[lo, hi]`; truncated
subtraction floors a negative overlap at zero, exactly as the source guards
do. -/
def winOvl (s e lo hi : Nat) : Nat := min e hi - max s lo

/-- Working-day test expressed on a calendar-day index. -/
def isWorkingDayIdx (d : Nat) : Bool := 1 ≤ (d + 4) % 7 && (d + 4) % 7 ≤ 6

theorem isWorkingDay_eq_idx (t : Nat) : isWorkingDay t = isWorkingDayIdx (t / dayMs) := rfl

theorem setTime_eq (t h m : Nat) : setTime t h m = t / dayMs * dayMs + hmOfs h m := rfl

/-- Closed form of one day of the working-time loop: the three working windows
of day `d` clamped to `[s, e]`. -/
def daySum (s e : Nat) (we : HM) (d : Nat) : Nat :=
  if isWorkingDayIdx d then
    winOvl s e (d * dayMs + hmOfs 8 30) (d * dayMs + hmOfs 12 0) +
    winOvl s e (d * dayMs + hmOfs 13 0) (d * dayMs + hmOfs 15 0) +
    winOvl s e (d * dayMs + hmOfs 15 10) (d * dayMs + we.ofs)
  else 0

theorem guardedOvl_eq (s e lo hi cur : Nat) (h : max cur lo = max s lo) :
    (if e > lo ∧ s < hi then (if min e hi > max cur lo then min e hi - max cur lo else 0) else 0)
      = winOvl s e lo hi := by
  rw [winOvl, h]
  split_ifs <;> omega

theorem dayWorkMs_eq_daySum (s e cur : Nat) (we : HM) (hs : s ≤ cur)
    (hc : cur = s ∨ cur = dayStart cur + hmOfs 8 30) :
    dayWorkMs s e cur we = daySum s e we (cur / dayMs) := by
  have hmax : ∀ L : Nat, 30600000 ≤ L →
      max cur (cur / dayMs * dayMs + L) = max s (cur / dayMs * dayMs + L) := by
    intro L hL
    rcases hc with hc | hc
    · rw [hc]
    · simp only [dayStart, hmOfs, hourMs, minuteMs, dayMs] at hc
      simp only [dayMs]
      omega
  simp only [dayWorkMs, daySum, setTime_eq, isWorkingDay_eq_idx,
    show WORK_START.h = 8 from rfl, show WORK_START.m = 30 from rfl,
    show LUNCH_START.h = 12 from rfl, show LUNCH_START.m = 0 from rfl,
    show LUNCH_END.h = 13 from rfl, show LUNCH_END.m = 0 from rfl,
    show BREAK_START.h = 15 from rfl, show BREAK_START.m = 0 from rfl,
    show BREAK_END.h = 15 from rfl, show BREAK_END.m = 10 from rfl, HM.ofs]
  by_cases hw : isWorkingDayIdx (cur / dayMs)
  · rw [if_pos hw, if_pos hw]
    rw [guardedOvl_eq s e _ _ cur (by simpa [hmOfs, hourMs, minuteMs] using hmax (hmOfs 8 30) (by simp [hmOfs, hourMs, minuteMs]))]
    rw [guardedOvl_eq s e _ _ cur (by simpa [hmOfs, hourMs, minuteMs] using hmax (hmOfs 13 0) (by simp [hmOfs, hourMs, minuteMs]))]
    rw [guardedOvl_eq s e _ _ cur (by simpa [hmOfs, hourMs, minuteMs] using hmax (hmOfs 15 10) (by simp [hmOfs, hourMs, minuteMs]))]
  · rw [if_neg hw, if_neg hw]

theorem calcWorkLoop_eq_sum (s e : Nat) (we : HM) :
    ∀ fuel cur, s ≤ cur → (cur = s ∨ cur = dayStart cur + hmOfs 8 30) →
      e / dayMs + 1 ≤ fuel + cur / dayMs →
      calcWorkLoop s e we fuel cur =
        ∑ d in Finset.Ico (cur / dayMs) (e / dayMs + 1), daySum s e we d := by
  intro fuel
  induction fuel with
  | zero =>
    intro cur h1 h2 h3
    rw [Finset.Ico_eq_empty (by omega), Finset.sum_empty]
    rfl
  | succ fuel ih =>
    intro cur h1 h2 h3
    by_cases hlt : cur < e
    · have hdiv : cur / dayMs ≤ e / dayMs := Nat.div_le_div_right (Nat.le_of_lt hlt)
      have hnextval : nextDayAt cur WORK_START.h WORK_START.m = (cur / dayMs + 1) * dayMs + 30600000 := by
        simp [nextDayAt, WORK_START, hmOfs, hourMs, minuteMs]
      have hnext_div : nextDayAt cur WORK_START.h WORK_START.m / dayMs = cur / dayMs + 1 := by
        rw [hnextval]; simp only [dayMs]; omega
      have hle : s ≤ nextDayAt cur WORK_START.h WORK_START.m := by
        rw [hnextval]; simp only [dayMs]; omega
      have hds : dayStart (nextDayAt cur WORK_START.h WORK_START.m) = (cur / dayMs + 1) * dayMs := by
        rw [dayStart, hnext_div]
      have hinv : nextDayAt cur WORK_START.h WORK_START.m =
          dayStart (nextDayAt cur WORK_START.h WORK_START.m) + hmOfs 8 30 := by
        rw [hds, hnextval]
        simp [hmOfs, hourMs, minuteMs]
      have hfuel : e / dayMs + 1 ≤ fuel + nextDayAt cur WORK_START.h WORK_START.m / dayMs := by
        rw [hnext_div]; omega
      rw [show calcWorkLoop s e we (fuel + 1) cur =
          dayWorkMs s e cur we + calcWorkLoop s e we fuel (nextDayAt cur WORK_START.h WORK_START.m) by
        simp [calcWorkLoop, hlt]]
      rw [ih _ hle (Or.inr hinv) hfuel, hnext_div]
      rw [dayWorkMs_eq_daySum s e cur we h1 h2]
      conv_rhs => rw [Finset.sum_eq_sum_Ico_succ_bot (show cur / dayMs < e / dayMs + 1 by omega)]
    · rw [show calcWorkLoop s e we (fuel + 1) cur = 0 by simp [calcWorkLoop, hlt]]
      symm
      apply Finset.sum_eq_zero
      intro d hd
      rw [Finset.mem_Ico] at hd
      rcases h2 with h2 | h2
      · subst h2
        simp only [daySum, winOvl, HM.ofs, hmOfs, hourMs, minuteMs, dayMs]
        split_ifs <;> omega
      · simp only [dayStart, hmOfs, hourMs, minuteMs, dayMs] at h2
        simp only [daySum, winOvl, HM.ofs, hmOfs, hourMs, minuteMs, dayMs] at hd ⊢
        split_ifs <;> omega

theorem daySum_zero_of_lt (s e : Nat) (we : HM) (d : Nat) (hwe : we.ofs ≤ dayMs)
    (hd : d < s / dayMs) : daySum s e we d = 0 := by
  simp only [daySum, winOvl, HM.ofs, hmOfs, hourMs, minuteMs, dayMs] at hwe hd ⊢
  split_ifs <;> omega

theorem daySum_zero_of_gt (s e : Nat) (we : HM) (d : Nat) (hd : e / dayMs < d) :
    daySum s e we d = 0 := by
  simp only [daySum, winOvl, HM.ofs, hmOfs, hourMs, minuteMs, dayMs] at hd ⊢
  split_ifs <;> omega

theorem calculateWorkingTimeMs_eq_sum (s e : Nat) (cw : Option HM)
    (hwe : (cw.getD WORK_END).ofs ≤ dayMs) :
    calculateWorkingTimeMs s e cw =
      ∑ d in Finset.range (e / dayMs + 1), daySum s e (cw.getD WORK_END) d := by
  rw [calculateWorkingTimeMs, calcWorkLoop_eq_sum s e (cw.getD WORK_END) (e / dayMs + 1) s le_rfl (Or.inl rfl) (Nat.le_add_right _ _)]
  rw [Finset.range_eq_Ico]
  apply Finset.sum_subset
  · exact Finset.Ico_subset_Ico (Nat.zero_le _) le_rfl
  · intro x hx hnx
    rw [Finset.mem_Ico] at hx hnx
    refine daySum_zero_of_lt s e _ x hwe ?_
    omega

theorem winOvl_add (a b c lo hi : Nat) (hab : a ≤ b) (hbc : b ≤ c) :
    winOvl a c lo hi = winOvl a b lo hi + winOvl b c lo hi := by
  simp only [winOvl]
  omega

theorem daySum_add (a b c : Nat) (we : HM) (d : Nat) (hab : a ≤ b) (hbc : b ≤ c) :
    daySum a c we d = daySum a b we d + daySum b c we d := by
  simp only [daySum]
  split_ifs
  · rw [winOvl_add a b c _ _ hab hbc, winOvl_add a b c (d * dayMs + hmOfs 13 0) _ hab hbc,
      winOvl_add a b c (d * dayMs + hmOfs 15 10) _ hab hbc]
    omega
  · rfl

theorem calculateWorkingTimeMs_zero (s e : Nat) (cw : Option HM) (h : e ≤ s) :
    calculateWorkingTimeMs s e cw = 0 := by
  simp [calculateWorkingTimeMs, calcWorkLoop, Nat.not_lt.mpr h]

theorem calculateOtTimeMs_zero (s e : Nat) (h : e ≤ s) : calculateOtTimeMs s e = 0 := by
  simp [calculateOtTimeMs, calcOtLoop, Nat.not_lt.mpr h]

/-- C4: `calculateWorkingTimeMs` is additive over a split point of the
interval, non-negative, and zero on an empty interval, and `calculateOtTimeMs`
is likewise non-negative and zero on an empty interval. -/
theorem C4_workingTime_additive (a b c s e : Nat) (hab : a ≤ b) (hbc : b ≤ c) :
    calculateWorkingTimeMs a c none = calculateWorkingTimeMs a b none + calculateWorkingTimeMs b c none ∧
    0 ≤ calculateWorkingTimeMs s e none ∧
    (e ≤ s → calculateWorkingTimeMs s e none = 0) ∧
    0 ≤ calculateOtTimeMs s e ∧
    (e ≤ s → calculateOtTimeMs s e = 0) := by
  refine ⟨?_, Nat.zero_le _, fun h => calculateWorkingTimeMs_zero s e none h,
    Nat.zero_le _, fun h => calculateOtTimeMs_zero s e h⟩
  have hwe : ((none : Option HM).getD WORK_END).ofs ≤ dayMs := by decide
  rw [calculateWorkingTimeMs_eq_sum a c none hwe, calculateWorkingTimeMs_eq_sum a b none hwe,
    calculateWorkingTimeMs_eq_sum b c none hwe]
  simp only [Option.getD_none]
  have hdd : b / dayMs ≤ c / dayMs := Nat.div_le_div_right hbc
  have hext : ∑ d in Finset.range (b / dayMs + 1), daySum a b WORK_END d
      = ∑ d in Finset.range (c / dayMs + 1), daySum a b WORK_END d := by
    apply Finset.sum_subset
    · exact Finset.range_subset.mpr (by omega)
    · intro x hx hnx
      rw [Finset.mem_range] at hx hnx
      exact daySum_zero_of_gt a b WORK_END x (by omega)
  rw [hext, ← Finset.sum_add_distrib]
  exact Finset.sum_congr rfl (fun d _ => daySum_add a b c WORK_END d hab hbc)

/-- Overtime overlap as the pause-duration claim states it: only the portions
of `[pauseStart, pauseEnd]` intersecting an OT session that has both a start
and an end contribute, each through `calculateOtTimeMs` on the
intersection. -/
def otOverlapSum (pauseStart pauseEnd : Nat) (otSessions : List OTSession) : Nat :=
  (otSessions.filterMap (fun ot =>
    match ot.start, ot.end_ with
    | some s, some e =>
      if min pauseEnd e > max pauseStart s then
        some (calculateOtTimeMs (max pauseStart s) (min pauseEnd e))
      else none
    | _, _ => none)).sum

theorem otFoldAux (ps pe : Nat) (l : List OTSession) : ∀ acc : Nat,
    List.foldl (fun acc ot =>
      match ot.start, ot.end_ with
      | some otStart, some otEnd =>
        let overlapStart := max ps otStart
        let overlapEnd := min pe otEnd
        if overlapEnd > overlapStart then acc + calculateOtTimeMs overlapStart overlapEnd else acc
      | _, _ => acc) acc l = acc + otOverlapSum ps pe l := by
  induction l with
  | nil => intro acc; simp [otOverlapSum]
  | cons ot rest ih =>
    intro acc
    rw [List.foldl_cons, ih]
    simp only [otOverlapSum, List.filterMap_cons] at *
    cases hs : ot.start with
    | none => simp
    | some s0 =>
      cases he : ot.end_ with
      | none => simp
      | some e0 =>
        simp only []
        split_ifs with h
        · simp only [List.sum_cons]
          omega
        · simp

theorem otOverlapSum_zero (ps pe : Nat) (l : List OTSession)
    (h : ∀ ot ∈ l, ∀ s0 e0, ot.start = some s0 → ot.end_ = some e0 →
      min pe e0 ≤ max ps s0) : otOverlapSum ps pe l = 0 := by
  rw [otOverlapSum]
  have hnone : ∀ ot ∈ l, (fun (ot : OTSession) =>
      match ot.start, ot.end_ with
      | some s, some e =>
        if min pe e > max ps s then
          some (calculateOtTimeMs (max ps s) (min pe e))
        else none
      | _, _ => none) ot = none := by
    intro ot hot
    cases hs : ot.start with
    | none => simp [hs]
    | some s0 =>
      cases he : ot.end_ with
      | none => simp [hs, he]
      | some e0 =>
        have hno := h ot hot s0 e0 hs he
        simp [hs, he]
        omega
  rw [List.filterMap_eq_nil_iff.mpr hnone, List.sum_nil]

/-- C3: the pause duration equals the working-hours overlap of the interval
plus overtime overlap taken only on the portions intersecting a logged OT
session that has both endpoints; a pause intersecting no such session gets no
overtime component at all. -/
theorem C3_pauseDuration_ot_sessions (pauseStart pauseEnd : Nat) (otSessions : List OTSession) :
    calculatePauseTimeWithOTSessions pauseStart pauseEnd otSessions =
      calculateWorkingTimeMs pauseStart pauseEnd none + otOverlapSum pauseStart pauseEnd otSessions ∧
    ((∀ ot ∈ otSessions, ∀ s0 e0, ot.start = some s0 → ot.end_ = some e0 →
        min pauseEnd e0 ≤ max pauseStart s0) →
      calculatePauseTimeWithOTSessions pauseStart pauseEnd otSessions =
        calculateWorkingTimeMs pauseStart pauseEnd none) := by
  have hbase : calculatePauseTimeWithOTSessions pauseStart pauseEnd otSessions =
      calculateWorkingTimeMs pauseStart pauseEnd none + otOverlapSum pauseStart pauseEnd otSessions := by
    simp only [calculatePauseTimeWithOTSessions]
    rw [otFoldAux pauseStart pauseEnd otSessions 0, Nat.zero_add]
  refine ⟨hbase, fun h => ?_⟩
  rw [hbase, otOverlapSum_zero pauseStart pauseEnd otSessions h, Nat.add_zero]

/-- C3 witness: a pause interval lying inside the 17:30-22:30 band but
intersecting no logged OT session is billed no overtime (the single session
of the list ends before the pause starts). -/
theorem C3_pauseDuration_witness :
    calculatePauseTimeWithOTSessions (4 * dayMs + hmOfs 18 0) (4 * dayMs + hmOfs 19 0)
        [{ start := some (4 * dayMs + hmOfs 17 30), end_ := some (4 * dayMs + hmOfs 17 45) }] =
      calculateWorkingTimeMs (4 * dayMs + hmOfs 18 0) (4 * dayMs + hmOfs 19 0) none :=
  (C3_pauseDuration_ot_sessions (4 * dayMs + hmOfs 18 0) (4 * dayMs + hmOfs 19 0)
      [{ start := some (4 * dayMs + hmOfs 17 30), end_ := some (4 * dayMs + hmOfs 17 45) }]).2
    (by
      intro ot hot s0 e0 hs he
      rw [List.mem_singleton] at hot
      subst hot
      simp only [Option.some.injEq] at hs he
      subst hs
      subst he
      decide)

theorem lastMatchIdxFrom_spec (p : Row → Bool) :
    ∀ (l : List Row) (n i : Nat) (r : Row),
      lastMatchIdxFrom p n l = some (i, r) →
      n ≤ i ∧ l.get? (i - n) = some r ∧ p r = true := by
  intro l
  induction l with
  | nil => intro n i r h; simp [lastMatchIdxFrom] at h
  | cons r0 rest ih =>
    intro n i r h
    rw [lastMatchIdxFrom] at h
    cases hrec : lastMatchIdxFrom p (n + 1) rest with
    | some x =>
      rw [hrec] at h
      cases h
      obtain ⟨h1, h2, h3⟩ := ih (n + 1) i r hrec
      refine ⟨by omega, ?_, h3⟩
      rw [show i - n = (i - (n + 1)) + 1 by omega]
      simpa using h2
    | none =>
      rw [hrec] at h
      by_cases hp : p r0
      · rw [if_pos hp] at h
        cases h
        exact ⟨le_rfl, by simp, hp⟩
      · rw [if_neg hp] at h
        cases h

theorem lastMatchIdx_spec (p : Row → Bool) (values : List Row) (i : Nat) (r : Row)
    (h : lastMatchIdx p values = some (i, r)) :
    values.get? i = some r ∧ p r = true := by
  obtain ⟨h1, h2, h3⟩ := lastMatchIdxFrom_spec p values 0 i r h
  rw [Nat.sub_zero] at h2
  exact ⟨h2, h3⟩

theorem lastMatchIdx_lt_length (p : Row → Bool) (values : List Row) (i : Nat) (r : Row)
    (h : lastMatchIdx p values = some (i, r)) : i < values.length := by
  have h2 := (lastMatchIdx_spec p values i r h).1
  by_contra hc
  rw [List.get?_eq_none.mpr (Nat.le_of_not_lt hc)] at h2
  cases h2

/-- Sum of `overtimeTimeMs` over exactly the OT sessions having both a start
and an end, as the close-time claim states the overtime component. -/
def otBothEndsSum (otTimes : List OTSession) : Nat :=
  (otTimes.filterMap (fun ot =>
    match ot.start, ot.end_ with
    | some s, some e => some (calculateOtTimeMs s e)
    | _, _ => none)).sum

theorem otClosedFoldAux (l : List OTSession) : ∀ acc : Nat,
    List.foldl (fun acc ot =>
      match ot.start, ot.end_ with
      | some s, some e => acc + calculateOtTimeMs s e
      | _, _ => acc) acc l = acc + otBothEndsSum l := by
  induction l with
  | nil => intro acc; simp [otBothEndsSum]
  | cons ot rest ih =>
    intro acc
    rw [List.foldl_cons, ih]
    simp only [otBothEndsSum, List.filterMap_cons]
    cases hs : ot.start with
    | none => simp
    | some s0 =>
      cases he : ot.end_ with
      | none => simp
      | some e0 =>
        simp only [List.sum_cons]
        omega

theorem otClosedSumMs_eq (l : List OTSession) : otClosedSumMs l = otBothEndsSum l := by
  rw [otClosedSumMs, otClosedFoldAux, Nat.zero_add]

/-- C2: a close command that finds its matching row in state OPEN or OT
persists exactly the process time
`workingTimeMs(start, now, customWorkEnd-for-Machine-Setting) + overtime over
sessions with both endpoints − total pause over completed sessions`, floored
at zero, where the session lists are the ones the close itself persists. -/
theorem C2_close_processTime (data : Request) (values : List Row) (now i : Nat) (row : Row)
    (hfind : lastMatchIdx (fun r => matchesJobRow data r &&
        (r.status == "PAUSE" || r.status == "OPEN" || r.status == "OT")) values = some (i, row))
    (hst : row.status = "OPEN" ∨ row.status = "OT") :
    (submitLogClose data values now).err = none ∧
    ∃ u, (submitLogClose data values now).table.get? i = some u ∧
      u.status = "CLOSE" ∧ u.startTime = row.startTime ∧ u.pauseTimes = row.pauseTimes ∧
      u.processTime = msToHHMMSSWithPlaceholder (Int.toNat (max 0
        ((calculateWorkingTimeMs u.startTime now
            (if normalize u.processName == normalize "Machine Setting" then some ⟨22, 30⟩ else none) : Int)
          + (otBothEndsSum u.otTimes : Int)
          - (calculateTotalPauseTimeWithOTSessions u.pauseTimes u.otTimes : Int)))) := by
  have hlen : i < values.length := lastMatchIdx_lt_length _ values i row hfind
  have hnp : (row.status == "PAUSE") = false := by
    rcases hst with h | h <;> rw [h] <;> rfl
  rw [submitLogClose, hfind]
  simp only []
  rw [if_neg (by simp [hnp])]
  refine ⟨rfl, ?_⟩
  dsimp only
  rw [List.get?_set_eq_of_lt _ hlen]
  refine ⟨_, rfl, rfl, rfl, rfl, ?_⟩
  dsimp only
  apply congrArg msToHHMMSSWithPlaceholder
  rw [otClosedSumMs_eq]
  split_ifs <;> omega

def c2Row : Row :=
  { logNo := 1, projectNo := "P2", partName := "PartC", processName := "Milling",
    processNo := "2", stepNo := "1", machineNo := "M3", startTime := 4 * dayMs + hmOfs 9 0,
    status := "OT",
    pauseTimes := [{ type := "PAUSE", reason := "",
                     pause := some (4 * dayMs + hmOfs 10 0),
                     resume := some (4 * dayMs + hmOfs 10 30) }],
    otTimes := [{ start := some (4 * dayMs + hmOfs 17 30) }] }

def c2Req : Request :=
  { status := "CLOSE", projectNo := "P2", processName := "Milling", processNo := "2",
    stepNo := "1", machineNo := "M3", employeeCode := "E9", fg := 3 }

/-- C2 witness: closing a concrete OT row with one completed pause and one
still-open OT session succeeds. -/
theorem C2_close_witness :
    (submitLogClose c2Req [c2Row] (4 * dayMs + hmOfs 18 0)).err = none :=
  (C2_close_processTime c2Req [c2Row] (4 * dayMs + hmOfs 18 0) 0 c2Row (by decide) (Or.inr rfl)).1

/-- C6: a start-overtime request that finds its matching row in OPEN or OT is
rejected without any table change when now is before 17:30 or at/after 22:30
of the current day; inside the window it appends one fresh open OT session
(after the auto-stop sweep) and sets status OT. -/
theorem C6_startOt_window (data : Request) (values : List Row) (now i : Nat) (row : Row)
    (hfind : lastMatchIdx (fun r => matchesJobRow data r && (r.status == "OPEN" || r.status == "OT"))
      values = some (i, row)) :
    ((now < setTime now OT_START.h OT_START.m ∨ setTime now OT_END.h OT_END.m ≤ now) →
      (submitLogStartOt data values now).table = values ∧
      (submitLogStartOt data values now).err.isSome = true) ∧
    (setTime now OT_START.h OT_START.m ≤ now → now < setTime now OT_END.h OT_END.m →
      submitLogStartOt data values now = { table := values.set i { row with
        status := "OT",
        otTimes := (autoStopOtSessions row.otTimes now).2 ++
          [{ start := some now, start_local := formatLocalTimestamp now }] } }) := by
  rw [submitLogStartOt, hfind]
  dsimp only
  constructor
  · intro h
    by_cases h1 : setTime now OT_END.h OT_END.m ≤ now
    · rw [if_pos h1]
      exact ⟨rfl, rfl⟩
    · have h2 : now < setTime now OT_START.h OT_START.m := by
        rcases h with h | h
        · exact h
        · exact absurd h h1
      rw [if_neg h1, if_pos h2]
      exact ⟨rfl, rfl⟩
  · intro h1 h2
    rw [if_neg (Nat.not_le.mpr h2), if_neg (Nat.not_lt.mpr h1)]

def c6Row : Row :=
  { logNo := 1, projectNo := "P3", partName := "PartD", processName := "Turning",
    processNo := "1", stepNo := "2", machineNo := "M4", startTime := 4 * dayMs + hmOfs 9 0,
    status := "OPEN" }

def c6Req : Request :=
  { status := "OPEN", action := "START_OT", projectNo := "P3", partName := "PartD",
    processName := "Turning", processNo := "1", stepNo := "2", machineNo := "M4" }

/-- C6 witness: a start-overtime request at 16:00 is rejected and leaves its
row unchanged. -/
theorem C6_startOt_witness :
    (submitLogStartOt c6Req [c6Row] (4 * dayMs + hmOfs 16 0)).table = [c6Row] ∧
    (submitLogStartOt c6Req [c6Row] (4 * dayMs + hmOfs 16 0)).err.isSome = true :=
  (C6_startOt_window c6Req [c6Row] (4 * dayMs + hmOfs 16 0) 0 c6Row (by decide)).1
    (Or.inl (by decide))

theorem submitLogRun_create (data : Request) (values : List Row)
    (guardRead : Except String (List Row)) (now : Nat)
    (hs : data.status = "OPEN") (ha1 : startOtActionName data.action ≠ "START_OT")
    (ha2 : data.action ≠ "STOP_OT") (ha3 : data.action ≠ "CONTINUE") :
    submitLogRun data values guardRead now =
      if isDuplicateOpenJob data guardRead then
        { table := values, err := some (dupOpenErrorMessage data) }
      else { table := values ++ [createRow data values now] } := by
  have e0 : (data.status == "OPEN") = true := beq_iff_eq.mpr hs
  have e1 : (startOtActionName data.action == "START_OT") = false := beq_eq_false_iff_ne.mpr ha1
  have e2 : (data.action == "STOP_OT") = false := beq_eq_false_iff_ne.mpr ha2
  have e3 : (data.action == "CONTINUE") = false := beq_eq_false_iff_ne.mpr ha3
  rw [submitLogRun]
  simp only [e0, e1, e2, e3, Bool.true_or, if_true, Bool.false_eq_true, if_false]

/-- Normalized identity key of a row (projectNo, partName, processName,
processNo, stepNo, machineNo), as the invariant claim states it. -/
def identityKey (r : Row) : List String :=
  [normalizeProjectNo r.projectNo, normalize r.partName, normalize r.processName,
   normalize r.processNo, normalize r.stepNo, normalize r.machineNo]

def c1ReqCreate : Request :=
  { status := "OPEN", projectNo := "P1", partName := "PartA", processName := "Milling",
    processNo := "1", stepNo := "1", machineNo := "M1", employeeCode := "E1" }

def c1ReqPause : Request :=
  { status := "PAUSE", projectNo := "P1", partName := "PartA", processName := "Milling",
    processNo := "1", stepNo := "1", machineNo := "M1", pauseType := "DOWNTIME",
    pauseReason := "tooling" }

def c1ReqContinue : Request :=
  { status := "OPEN", action := "CONTINUE", projectNo := "P1", partName := "PartA",
    processName := "Milling", processNo := "1", stepNo := "1", machineNo := "M1" }

def c1Step1 : SubmitResult := submitLogRun c1ReqCreate [] (Except.ok []) (4 * dayMs + hmOfs 9 0)

def c1Step2 : SubmitResult :=
  submitLogRun c1ReqPause c1Step1.table (Except.ok c1Step1.table) (4 * dayMs + hmOfs 10 0)

def c1Step3 : SubmitResult :=
  submitLogRun c1ReqCreate c1Step2.table (Except.ok c1Step2.table) (4 * dayMs + hmOfs 10 15)

def c1Step4 : SubmitResult :=
  submitLogRun c1ReqContinue c1Step3.table (Except.ok c1Step3.table) (4 * dayMs + hmOfs 10 30)

def c1Key : List String :=
  [normalizeProjectNo "P1", normalize "PartA", normalize "Milling",
   normalize "1", normalize "1", normalize "M1"]

/-- C1 counterexample: the four-command run create, pause, duplicate create,
continue — every step accepted — reaches a table holding two OPEN rows with
the same normalized identity key, so OPEN-uniqueness does not hold over all
reachable states. -/
theorem C1_counterexample :
    (c1Step1.err = none ∧ c1Step2.err = none ∧ c1Step3.err = none ∧ c1Step4.err = none) ∧
    c1Step4.table.map (fun r => (r.status, identityKey r)) =
      [("OPEN", c1Key), ("OPEN", c1Key)] := by decide

/-- C1 (amended): the duplicate-OPEN guard acts exactly at creation — a create
request is rejected, appending nothing, precisely when some row currently
carries the same normalized six-field key with status OPEN; otherwise (in
particular once every such row is CLOSE) it appends a fresh OPEN row. -/
theorem C1_create_guard (data : Request) (values : List Row) (now : Nat)
    (hs : data.status = "OPEN") (ha1 : startOtActionName data.action ≠ "START_OT")
    (ha2 : data.action ≠ "STOP_OT") (ha3 : data.action ≠ "CONTINUE") :
    (values.any (isDuplicateOpenJobRow data) = true →
      submitLogRun data values (Except.ok values) now =
        { table := values, err := some (dupOpenErrorMessage data) }) ∧
    (values.any (isDuplicateOpenJobRow data) = false →
      submitLogRun data values (Except.ok values) now =
        { table := values ++ [createRow data values now] }) ∧
    (∀ r : Row, jsTrimUpper r.status ≠ "OPEN" → isDuplicateOpenJobRow data r = false) := by
  rw [submitLogRun_create data values (Except.ok values) now hs ha1 ha2 ha3]
  refine ⟨fun h => ?_, fun h => ?_, fun r hr => ?_⟩
  · rw [if_pos]
    show isDuplicateOpenJob data (Except.ok values) = true
    exact h
  · rw [if_neg]
    show ¬ isDuplicateOpenJob data (Except.ok values) = true
    rw [show isDuplicateOpenJob data (Except.ok values) = values.any (isDuplicateOpenJobRow data) from rfl, h]
    exact Bool.false_ne_true
  · simp [isDuplicateOpenJobRow, beq_eq_false_iff_ne.mpr hr]

/-- C1 witness: with the freshly created OPEN row present, the equivalent
create request is rejected without appending, and the error carries the
duplicate message. -/
theorem C1_create_guard_witness :
    submitLogRun c1ReqCreate c1Step1.table (Except.ok c1Step1.table) (4 * dayMs + hmOfs 10 0) =
      { table := c1Step1.table, err := some (dupOpenErrorMessage c1ReqCreate) } :=
  (C1_create_guard c1ReqCreate c1Step1.table (4 * dayMs + hmOfs 10 0) rfl
    (by decide) (by decide) (by decide)).1 (by decide)

/-- C10: a failed read inside the duplicate guard makes it return false, so
the create command proceeds and appends a new OPEN row — the guard fails
open under internal errors. -/
theorem C10_guard_fails_open (data : Request) (values : List Row) (msg : String) (now : Nat)
    (hs : data.status = "OPEN") (ha1 : startOtActionName data.action ≠ "START_OT")
    (ha2 : data.action ≠ "STOP_OT") (ha3 : data.action ≠ "CONTINUE") :
    isDuplicateOpenJob data (Except.error msg) = false ∧
    submitLogRun data values (Except.error msg) now =
      { table := values ++ [createRow data values now] } := by
  refine ⟨rfl, ?_⟩
  rw [submitLogRun_create data values (Except.error msg) now hs ha1 ha2 ha3]
  rw [if_neg]
  show ¬ isDuplicateOpenJob data (Except.error msg) = true
  rw [show isDuplicateOpenJob data (Except.error msg) = false from rfl]
  exact Bool.false_ne_true

/-- C10 witness: even with a duplicate OPEN row present, a guard-read failure
lets the duplicate create append a second row. -/
theorem C10_guard_fails_open_witness :
    isDuplicateOpenJob c1ReqCreate (Except.error "read failed") = false ∧
    submitLogRun c1ReqCreate c1Step1.table (Except.error "read failed") (4 * dayMs + hmOfs 10 0) =
      { table := c1Step1.table ++
          [createRow c1ReqCreate c1Step1.table (4 * dayMs + hmOfs 10 0)] } :=
  C10_guard_fails_open c1ReqCreate c1Step1.table "read failed" (4 * dayMs + hmOfs 10 0) rfl
    (by decide) (by decide) (by decide)

/-- C9: a request whose status is none of OPEN / PAUSE / CLOSE and whose
action is neither START_OT nor STOP_OT falls through every branch of
`submitLog` without touching the table, and the command endpoint then
answers with a plain OK. -/
theorem C9_unrecognized_ok (data : Request) (values : List Row)
    (guardRead : Except String (List Row)) (now : Nat)
    (h1 : data.status ≠ "OPEN") (h2 : data.status ≠ "PAUSE") (h3 : data.status ≠ "CLOSE")
    (h4 : data.action ≠ "START_OT") (h5 : data.action ≠ "STOP_OT") :
    submitLogRun data values guardRead now = { table := values } ∧
    (data.action ≠ "DAILY_REPORT" → data.action ≠ "QC_REPORT" →
      doPost data values guardRead now = (ApiStatus.okStatus, values)) := by
  have e1 : (data.status == "OPEN") = false := beq_eq_false_iff_ne.mpr h1
  have e2 : (data.status == "PAUSE") = false := beq_eq_false_iff_ne.mpr h2
  have e3 : (data.status == "CLOSE") = false := beq_eq_false_iff_ne.mpr h3
  have e4 : (data.action == "START_OT") = false := beq_eq_false_iff_ne.mpr h4
  have e5 : (data.action == "STOP_OT") = false := beq_eq_false_iff_ne.mpr h5
  have hrun : submitLogRun data values guardRead now = { table := values } := by
    rw [submitLogRun]
    simp only [e1, e2, e3, e4, e5, Bool.false_or, Bool.false_eq_true, if_false]
  refine ⟨hrun, fun h6 h7 => ?_⟩
  have e6 : (data.action == "DAILY_REPORT") = false := beq_eq_false_iff_ne.mpr h6
  have e7 : (data.action == "QC_REPORT") = false := beq_eq_false_iff_ne.mpr h7
  rw [doPost]
  simp only [e6, e7, Bool.false_eq_true, if_false, hrun]

def c9Req : Request :=
  { status := "", action := "CONTNUE", projectNo := "P1", partName := "PartA",
    processName := "Milling", processNo := "1", stepNo := "1", machineNo := "M1" }

/-- C9 witness: a misspelled CONTNUE action with no status mutates nothing and
the endpoint replies OK. -/
theorem C9_unrecognized_ok_witness :
    submitLogRun c9Req c1Step1.table (Except.ok c1Step1.table) (4 * dayMs + hmOfs 10 0) =
      { table := c1Step1.table } ∧
    doPost c9Req c1Step1.table (Except.ok c1Step1.table) (4 * dayMs + hmOfs 10 0) =
      (ApiStatus.okStatus, c1Step1.table) :=
  have h := C9_unrecognized_ok c9Req c1Step1.table (Except.ok c1Step1.table)
    (4 * dayMs + hmOfs 10 0) (by decide) (by decide) (by decide) (by decide) (by decide)
  ⟨h.1, h.2 (by decide) (by decide)⟩

def c5Row : Row :=
  { logNo := 1, projectNo := "P1", partName := "PartB", processName := "Milling",
    processNo := "1", stepNo := "1", machineNo := "M1", startTime := 4 * dayMs + hmOfs 9 0,
    status := "OPEN" }

/-- C5 counterexample: a pause request for part name PartA silently selects
and pauses the row of PartB (all other key fields equal) — the mutating
commands do not compare the part name. -/
theorem C5_counterexample :
    (submitLogRun c1ReqPause [c5Row] (Except.ok [c5Row]) (4 * dayMs + hmOfs 10 0)).err = none ∧
    (submitLogRun c1ReqPause [c5Row] (Except.ok [c5Row]) (4 * dayMs + hmOfs 10 0)).table.map
        (fun r => (r.status, r.partName)) = [("PAUSE", "PartB")] ∧
    normalize c1ReqPause.partName ≠ normalize c5Row.partName := by decide

/-- C5 (amended): the row selection of pause, continue, start-overtime,
stop-overtime and close compares only the normalized projectNo, processName,
processNo, stepNo and machineNo — never the part name — so those commands
behave identically on requests differing only in partName. -/
theorem C5_amended (data : Request) (values : List Row)
    (guardRead : Except String (List Row)) (now : Nat) (p q : String)
    (h : data.status = "PAUSE" ∨ data.status = "CLOSE" ∨ data.action = "CONTINUE" ∨
         data.action = "STOP_OT" ∨ startOtActionName data.action = "START_OT") :
    (∀ (r : Row) (x : String), matchesJobRow data { r with partName := x } = matchesJobRow data r) ∧
    submitLogRun { data with partName := p } values guardRead now =
      submitLogRun { data with partName := q } values guardRead now := by
  refine ⟨fun r x => rfl, ?_⟩
  obtain ⟨st, ac, pj, pa, cn, dw, qo, pn, pno, sn, mn, ec, pt0, pr0, f0, g0, w0, rm, mf⟩ := data
  simp only at h
  simp only [submitLogRun]
  by_cases hg : (st == "OPEN" || ac == "START_OT" || ac == "STOP_OT") = true
  · rw [if_pos hg, if_pos hg]
    by_cases hso : (startOtActionName ac == "START_OT") = true
    · rw [if_pos hso, if_pos hso]
      rfl
    · rw [if_neg hso, if_neg hso]
      by_cases hstop : (ac == "STOP_OT") = true
      · rw [if_pos hstop, if_pos hstop]
        rfl
      · rw [if_neg hstop, if_neg hstop]
        by_cases hcont : (ac == "CONTINUE") = true
        · rw [if_pos hcont, if_pos hcont]
          rfl
        · exfalso
          rw [Bool.or_eq_true, Bool.or_eq_true] at hg
          rcases h with h | h | h | h | h
          · rcases hg with (hg | hg) | hg
            · exact absurd (h.symm.trans (beq_iff_eq.mp hg)) (by decide)
            · exact hso (by rw [beq_iff_eq.mp hg]; decide)
            · exact hstop hg
          · rcases hg with (hg | hg) | hg
            · exact absurd (h.symm.trans (beq_iff_eq.mp hg)) (by decide)
            · exact hso (by rw [beq_iff_eq.mp hg]; decide)
            · exact hstop hg
          · exact hcont (beq_iff_eq.mpr h)
          · exact hstop (beq_iff_eq.mpr h)
          · exact hso (beq_iff_eq.mpr h)
  · rw [if_neg hg, if_neg hg]
    rfl

def c5ReqA : Request :=
  { status := "PAUSE", projectNo := "P1", partName := "PartA", processName := "Milling",
    processNo := "1", stepNo := "1", machineNo := "M1" }

/-- C5 witness: two pause requests differing only in part name produce the
same result on a concrete table. -/
theorem C5_amended_witness :
    (∀ (r : Row) (x : String), matchesJobRow c5ReqA { r with partName := x } = matchesJobRow c5ReqA r) ∧
    submitLogRun { c5ReqA with partName := "PartA" } [c5Row] (Except.ok [c5Row]) (4 * dayMs + hmOfs 10 0) =
      submitLogRun { c5ReqA with partName := "PartZ" } [c5Row] (Except.ok [c5Row]) (4 * dayMs + hmOfs 10 0) :=
  C5_amended c5ReqA [c5Row] (Except.ok [c5Row]) (4 * dayMs + hmOfs 10 0) "PartA" "PartZ"
    (Or.inl rfl)

/-- Fingerprint-relevant key of one (status, machine) pair: the hash reads
only each value's length and first character code. -/
def dashRowKey (x : String × String) : Nat × Nat × Nat × Nat :=
  (x.1.length, firstCharCode x.1, x.2.length, firstCharCode x.2)

theorem dashHashAux_congr : ∀ (l l2 : List (String × String)),
    l.map dashRowKey = l2.map dashRowKey →
    ∀ acc i, dashHashAux acc i l = dashHashAux acc i l2 := by
  intro l
  induction l with
  | nil =>
    intro l2 h acc i
    cases l2 with
    | nil => rfl
    | cons y rest2 => simp at h
  | cons x rest ih =>
    intro l2 h acc i
    cases l2 with
    | nil => simp at h
    | cons y rest2 =>
      simp only [List.map_cons, List.cons.injEq] at h
      obtain ⟨hk, hrest⟩ := h
      obtain ⟨h1, h2, h3, h4⟩ : x.1.length = y.1.length ∧ firstCharCode x.1 = firstCharCode y.1 ∧
          x.2.length = y.2.length ∧ firstCharCode x.2 = firstCharCode y.2 := by
        simpa [dashRowKey, Prod.ext_iff] using hk
      simp only [dashHashAux, h1, h2, h3, h4]
      exact ih rest2 hrest _ _

/-- C7 counterexample: changing the status of the first data row from AB to
AC (same length, same first character) leaves the version fingerprint
bit-identical, so the fingerprint does not change for every status change. -/
theorem C7_counterexample :
    getDashboardVersionFingerprint [("AB", "M1")] = getDashboardVersionFingerprint [("AC", "M1")] ∧
    (["AB", "M1"] : List String) ≠ ["AC", "M1"] := by decide

/-- C7 (amended): the fingerprint is a deterministic function of the row
count together with the length and first character code of the status and
machine values of the first 10 data rows; any change preserving those leaves
it bit-identical. -/
theorem C7_amended (rows rows2 : List (String × String))
    (hlen : rows.length = rows2.length)
    (hkey : (rows.take 10).map dashRowKey = (rows2.take 10).map dashRowKey) :
    getDashboardVersionFingerprint rows = getDashboardVersionFingerprint rows2 := by
  rw [getDashboardVersionFingerprint, getDashboardVersionFingerprint,
    getDashboardQuickHash, getDashboardQuickHash, hlen,
    dashHashAux_congr (rows.take 10) (rows2.take 10) hkey]

/-- C7 witness: the amended invariance at the concrete AB-to-AC change. -/
theorem C7_amended_witness :
    getDashboardVersionFingerprint [("AB", "M1"), ("CLOSE", "M2")] =
      getDashboardVersionFingerprint [("AC", "M1"), ("CLOSE", "M2")] :=
  C7_amended [("AB", "M1"), ("CLOSE", "M2")] [("AC", "M1"), ("CLOSE", "M2")]
    (by decide) (by decide)

def c8Row : Row :=
  { logNo := 1, projectNo := "P8", partName := "PartH", processName := "Milling",
    processNo := "1", stepNo := "1", machineNo := "M8", startTime := 4 * dayMs + hmOfs 9 0,
    status := "OPEN" }

def c8NewOts : List OTSession := [{ start := some (4 * dayMs + hmOfs 18 0) }]

/-- C8: the START_OT persistence consists of two separate single-cell writes
whose individual failures are swallowed — with the status write failing and
the session write succeeding, the command still reports success while the row
holds the new OT session list under the old OPEN status (status and session
list out of sync); pause, continue and close, by contrast, use one contiguous
range and re-throw a wrapped error on failure. -/
theorem C8_startOt_write_not_atomic :
    startOtWritePlan.length = 2 ∧
    (startOtApplyWrites true false c8Row "OT" c8NewOts).1 = none ∧
    (startOtApplyWrites true false c8Row "OT" c8NewOts).2.status = "OPEN" ∧
    (startOtApplyWrites true false c8Row "OT" c8NewOts).2.otTimes = c8NewOts ∧
    stopOtWritePlan.length = 4 ∧
    pauseWritePlan.length = 1 ∧ continueWritePlan.length = 1 ∧ closeWritePlan.dedup.length = 1 ∧
    (∀ (m : String) (nr : Row), closeApplyWrite (some m) nr =
      Except.error ("เกิดข้อผิดพลาดในการปิดงาน: " ++ ("เกิดข้อผิดพลาดในการเขียนข้อมูล: " ++ m))) ∧
    (∀ (m : String) (nr : Row), pauseApplyWrite (some m) nr =
      Except.error ("เกิดข้อผิดพลาดในการหยุดงาน: " ++ m)) := by
  exact ⟨rfl, rfl, rfl, rfl, rfl, rfl, rfl, by decide, fun m nr => rfl, fun m nr => rfl⟩

/-- C4 witness: additivity at a concrete split crossing a day boundary
(Monday 09:00 to Tuesday 11:00 split at Monday 16:00). -/
theorem C4_workingTime_additive_witness :
    calculateWorkingTimeMs (4 * dayMs + hmOfs 9 0) (5 * dayMs + hmOfs 11 0) none =
      calculateWorkingTimeMs (4 * dayMs + hmOfs 9 0) (4 * dayMs + hmOfs 16 0) none +
      calculateWorkingTimeMs (4 * dayMs + hmOfs 16 0) (5 * dayMs + hmOfs 11 0) none :=
  (C4_workingTime_additive (4 * dayMs + hmOfs 9 0) (4 * dayMs + hmOfs 16 0)
    (5 * dayMs + hmOfs 11 0) 0 0 (by decide) (by decide)).1

end Mfg
